import Mathlib

/-
  Verification development for the `native-svc` repository: a blocking HTTP
  bridge (`HyperHttpConnection` in src/src/lib.rs) implementing the
  embedded-svc `Connection` trait on top of an asynchronous hyper client.

  The embedding models the connection state (`request`, `response`,
  `read_buffer`, `write_buffer`) explicitly; the external transport
  (hyper client + tokio runtime) is passed to `initiate_response` as an
  oracle mapping the outgoing request to either a response or a transport
  failure. Byte buffers are `List Nat`; the external `http` crate
  validators (header names and values, URI parsing) are modelled by
  executable predicates following that crate's documented wire-format
  rules.
-/

set_option maxHeartbeats 1000000

namespace NativeSvc

/-- HTTP methods of the embedded-svc client abstraction (the external
enum the bridge receives in `initiate_request`). -/
inductive Method where
  | Delete | Get | Head | Post | Put | Connect | Options | Trace
  | Copy | Lock | MkCol | Move | Propfind | Proppatch | Search | Unlock
  | Bind | Rebind | Unbind | Acl | Report | MkActivity | Checkout | Merge
  | MSearch | Notify | Subscribe | Unsubscribe | Patch | Purge
  | MkCalendar | Link | Unlink
  deriving DecidableEq, Repr

/-- The hyper-side HTTP methods the bridge can map to
(`map_method` in src/src/lib.rs supports exactly these nine). -/
inductive HyperMethod where
  | DELETE | GET | HEAD | POST | PUT | CONNECT | OPTIONS | TRACE | PATCH
  deriving DecidableEq, Repr

/-- Debug representation of a `Method`, as produced by the Rust
format string in the `UnsupportedMethod` error payload. -/
def methodDebug : Method → String
  | .Delete => "Delete" | .Get => "Get" | .Head => "Head" | .Post => "Post"
  | .Put => "Put" | .Connect => "Connect" | .Options => "Options"
  | .Trace => "Trace" | .Copy => "Copy" | .Lock => "Lock" | .MkCol => "MkCol"
  | .Move => "Move" | .Propfind => "Propfind" | .Proppatch => "Proppatch"
  | .Search => "Search" | .Unlock => "Unlock" | .Bind => "Bind"
  | .Rebind => "Rebind" | .Unbind => "Unbind" | .Acl => "Acl"
  | .Report => "Report" | .MkActivity => "MkActivity"
  | .Checkout => "Checkout" | .Merge => "Merge" | .MSearch => "MSearch"
  | .Notify => "Notify" | .Subscribe => "Subscribe"
  | .Unsubscribe => "Unsubscribe" | .Patch => "Patch" | .Purge => "Purge"
  | .MkCalendar => "MkCalendar" | .Link => "Link" | .Unlink => "Unlink"

/-- Unified error enum of src/src/error.rs. Payloads of wrapped external
error types (io, http, hyper, client errors) are opaque to the bridge and
are dropped in the model; `UnsupportedMethod` keeps its message string. -/
inductive HyperError where
  | Io
  | Http
  | Hyper
  | Client
  | RuntimeCreation
  | UnsupportedMethod (s : String)
  | NoResponse
  | NoRequest
  | InvalidHeaderName
  | InvalidHeaderValue
  deriving DecidableEq, Repr

/-- Maps the embedded-svc `Method` to `hyper::Method` exactly as
`HyperHttpConnection::map_method` does: nine supported methods, all
others rejected with `UnsupportedMethod`. -/
def map_method : Method → Except HyperError HyperMethod
  | .Delete => Except.ok HyperMethod.DELETE
  | .Get => Except.ok HyperMethod.GET
  | .Head => Except.ok HyperMethod.HEAD
  | .Post => Except.ok HyperMethod.POST
  | .Put => Except.ok HyperMethod.PUT
  | .Connect => Except.ok HyperMethod.CONNECT
  | .Options => Except.ok HyperMethod.OPTIONS
  | .Trace => Except.ok HyperMethod.TRACE
  | .Patch => Except.ok HyperMethod.PATCH
  | m => Except.error (HyperError.UnsupportedMethod (methodDebug m))

/-- Valid characters of an HTTP header name, per the external `http`
crate used by hyper (`HeaderName::from_bytes`): ASCII alphanumerics and
the token punctuation set (codes 39 and 96 are apostrophe and
backquote). -/
def isHeaderNameChar (c : Char) : Bool :=
  c.isAlphanum || c = Char.ofNat 33 || c = Char.ofNat 35 || c = Char.ofNat 36 ||
  c = Char.ofNat 37 || c = Char.ofNat 38 || c = Char.ofNat 39 ||
  c = Char.ofNat 42 || c = Char.ofNat 43 || c = Char.ofNat 45 ||
  c = Char.ofNat 46 || c = Char.ofNat 94 || c = Char.ofNat 95 ||
  c = Char.ofNat 96 || c = Char.ofNat 124 || c = Char.ofNat 126

/-- Wire-format validity of a header name, modelling the external
`HeaderName::from_bytes` validation: nonempty, token characters only. -/
def headerNameValid (s : String) : Bool :=
  !s.isEmpty && s.toList.all isHeaderNameChar

/-- Wire-format validity of a header value, modelling the external
`HeaderValue::from_str` validation: horizontal tab, or any character of
code at least 32 other than DEL. -/
def headerValueValid (s : String) : Bool :=
  s.toList.all fun c => c.toNat = 9 || (32 ≤ c.toNat && c.toNat ≠ 127)

/-- A coarse executable model of the external `http` crate URI parser
invoked through `Request::builder().uri(uri)`: nonempty strings of
visible ASCII characters are accepted. The precise grammar lives in the
external crate; the bridge only propagates its verdict. -/
def uriValid (s : String) : Bool :=
  !s.isEmpty && s.toList.all fun c => 32 < c.toNat && c.toNat < 127

/-- ASCII lowercasing of one character, as applied to header names by
the external `HeaderName` constructor. -/
def lowerChar (c : Char) : Char :=
  if 65 ≤ c.toNat && c.toNat ≤ 90 then Char.ofNat (c.toNat + 32) else c

/-- ASCII lowercasing of a header name, modelling the normalisation
`HeaderName::from_bytes` performs on valid names. -/
def lowerString (s : String) : String :=
  String.mk (s.data.map lowerChar)

/-- Insertion into a header map with `HeaderMap::insert` semantics: a
pair with the same (already lowercased) name is overwritten in place,
otherwise the new pair is appended. -/
def insertHeader (acc : List (String × String)) (n v : String) :
    List (String × String) :=
  if acc.any fun p => p.1 = n then
    acc.map fun p => if p.1 = n then (p.1, v) else p
  else acc ++ [(n, v)]

/-- Loop of `build_headers`: validates each name (first) and value
(second), inserting the lowercased name into the accumulated map, and
aborts with the corresponding header error on the first violation. -/
def buildHeadersAux (acc : List (String × String)) :
    List (String × String) → Except HyperError (List (String × String))
  | [] => Except.ok acc
  | (n, v) :: rest =>
    if headerNameValid n then
      if headerValueValid v then
        buildHeadersAux (insertHeader acc (lowerString n) v) rest
      else Except.error HyperError.InvalidHeaderValue
    else Except.error HyperError.InvalidHeaderName

/-- `HyperHttpConnection::build_headers`: constructs a header map from
the given pairs, failing with `InvalidHeaderName` or
`InvalidHeaderValue` on the first invalid pair. -/
def build_headers (headers : List (String × String)) :
    Except HyperError (List (String × String)) :=
  buildHeadersAux [] headers

/-- An outbound request as stored in the bridge: the mapped hyper
method, the URI, the validated header map and the body bytes. -/
structure HRequest where
  method : HyperMethod
  uri : String
  headers : List (String × String)
  body : List Nat
  deriving DecidableEq, Repr

instance {ε α : Type} [DecidableEq ε] [DecidableEq α] :
    DecidableEq (Except ε α) := fun a b =>
  match a, b with
  | Except.ok x, Except.ok y =>
    if h : x = y then isTrue (by rw [h])
    else isFalse (by intro he; cases he; exact h rfl)
  | Except.error x, Except.error y =>
    if h : x = y then isTrue (by rw [h])
    else isFalse (by intro he; cases he; exact h rfl)
  | Except.ok _, Except.error _ => isFalse (by intro he; cases he)
  | Except.error _, Except.ok _ => isFalse (by intro he; cases he)

/-- An inbound response as handed back by the transport: status code,
headers, and the outcome of collecting the streamed `Incoming` body
(collecting may fail with a hyper error). -/
structure HResponse where
  status : Nat
  headers : List (String × String)
  body : Except Unit (List Nat)
  deriving DecidableEq, Repr

/-- The bridge state: the four mutable fields of `HyperHttpConnection`
(the owned tokio runtime and hyper client are external resources and
carry no bridge-visible state). -/
structure HyperHttpConnection where
  request : Option HRequest
  response : Option HResponse
  read_buffer : List Nat
  write_buffer : List Nat
  deriving DecidableEq, Repr

/-- The state produced by `HyperHttpConnection::new()` on success: no
request, no response, empty buffers. -/
def initialConn : HyperHttpConnection :=
  { request := none, response := none, read_buffer := [], write_buffer := [] }

/-- The transport oracle: the external hyper client plus runtime,
mapping a request to a response or a transport (client) failure. -/
def Transport : Type :=
  HRequest → Except Unit HResponse

/-- `Write::write`: appends the bytes to the write buffer and reports
the full count; it performs no request check and cannot fail. -/
def write (buf : List Nat) (c : HyperHttpConnection) :
    Except HyperError Nat × HyperHttpConnection :=
  (Except.ok buf.length, { c with write_buffer := c.write_buffer ++ buf })

/-- `Write::flush`: requires a pending request (`NoRequest` otherwise),
replaces its body with the write buffer and empties the write buffer. -/
def flush (c : HyperHttpConnection) :
    Except HyperError Unit × HyperHttpConnection :=
  match c.request with
  | none => (Except.error HyperError.NoRequest, c)
  | some req =>
    (Except.ok (),
      { c with request := some { req with body := c.write_buffer },
               write_buffer := [] })

/-- `Connection::initiate_request`: maps the method, validates the
headers, parses the URI, then installs the new empty-bodied request and
resets response and both buffers; any failure happens before mutation. -/
def initiate_request (m : Method) (uri : String)
    (headers : List (String × String)) (c : HyperHttpConnection) :
    Except HyperError Unit × HyperHttpConnection :=
  match map_method m with
  | Except.error e => (Except.error e, c)
  | Except.ok hm =>
    match build_headers headers with
    | Except.error e => (Except.error e, c)
    | Except.ok hmap =>
      if uriValid uri then
        (Except.ok (),
          { request := some { method := hm, uri := uri, headers := hmap,
                              body := [] },
            response := none, read_buffer := [], write_buffer := [] })
      else (Except.error HyperError.Http, c)

/-- `Connection::is_request_initiated`. -/
def is_request_initiated (c : HyperHttpConnection) : Bool :=
  c.request.isSome

/-- `Connection::initiate_response`: takes the pending request
(`NoRequest` if none), blocks on the transport; on success stores the
response, on transport failure surfaces `Client` with the request
already removed. -/
def initiate_response (tr : Transport) (c : HyperHttpConnection) :
    Except HyperError Unit × HyperHttpConnection :=
  match c.request with
  | none => (Except.error HyperError.NoRequest, c)
  | some req =>
    match tr req with
    | Except.error _ => (Except.error HyperError.Client, { c with request := none })
    | Except.ok resp =>
      (Except.ok (), { c with request := none, response := some resp })

/-- `Connection::is_response_initiated`. -/
def is_response_initiated (c : HyperHttpConnection) : Bool :=
  c.response.isSome

/-- `HyperHttpConnection::load_response_body`: takes the response (if
any) and collects its body into the read buffer; a collection failure
surfaces `Hyper` with the response already removed. -/
def load_response_body (c : HyperHttpConnection) :
    Except HyperError Unit × HyperHttpConnection :=
  match c.response with
  | none => (Except.ok (), c)
  | some resp =>
    match resp.body with
    | Except.error _ => (Except.error HyperError.Hyper, { c with response := none })
    | Except.ok bytes =>
      (Except.ok (), { c with response := none, read_buffer := bytes })

/-- Tail of `Read::read` after the optional body load: empty buffer
means EOF (0 bytes), otherwise copy `min available requested` bytes and
keep the rest. The returned list is the bytes copied into the caller's
buffer; its length is the returned count. -/
def readCore (n : Nat) (c : HyperHttpConnection) :
    Except HyperError (List Nat) × HyperHttpConnection :=
  if c.read_buffer.isEmpty then (Except.ok [], c)
  else
    let length := min c.read_buffer.length n
    (Except.ok (c.read_buffer.take length),
      { c with read_buffer := c.read_buffer.drop length })

/-- `Read::read` with a destination buffer of capacity `n`: loads the
response body first when the read buffer is empty and a response is
set, then serves bytes from the read buffer. -/
def read (n : Nat) (c : HyperHttpConnection) :
    Except HyperError (List Nat) × HyperHttpConnection :=
  if c.read_buffer.isEmpty && c.response.isSome then
    match load_response_body c with
    | (Except.error e, c1) => (Except.error e, c1)
    | (Except.ok _, c1) => readCore n c1
  else readCore n c

/-- `Status::status`: the response status as u16, or the 500 sentinel
when `ensure_response` fails because no response is set. -/
def status (c : HyperHttpConnection) : Nat :=
  match c.response with
  | some resp => resp.status
  | none => 500

/-- `Headers::header`: case-insensitive lookup in the response headers;
none when no response is set or the name is absent. -/
def header (c : HyperHttpConnection) (name : String) : Option String :=
  match c.response with
  | none => none
  | some resp =>
    (resp.headers.find? fun p => lowerString p.1 = lowerString name).map
      Prod.snd

/-- One caller-visible operation on the bridge, with any transport
outcome needed to resolve it supplied as data. -/
inductive Op where
  | opInitReq (m : Method) (uri : String) (headers : List (String × String))
  | opWrite (buf : List Nat)
  | opFlush
  | opInitResp (tr : Transport)
  | opRead (n : Nat)

/-- State reached after applying one operation (the result value is
dropped; errors leave their documented state behind). -/
def applyOp (c : HyperHttpConnection) : Op → HyperHttpConnection
  | .opInitReq m uri hs => (initiate_request m uri hs c).2
  | .opWrite buf => (write buf c).2
  | .opFlush => (flush c).2
  | .opInitResp tr => (initiate_response tr c).2
  | .opRead n => (read n c).2

/-- States of the bridge reachable from construction by any sequence
of trait-level operations. -/
inductive Reachable : HyperHttpConnection → Prop where
  | init : Reachable initialConn
  | step (c : HyperHttpConnection) (op : Op) :
      Reachable c → Reachable (applyOp c op)

/-- The lifecycle invariant of reachable bridge states: while a request
is pending the read buffer is empty and no response is set, and while a
response is set the read buffer is empty. -/
def GoodState (c : HyperHttpConnection) : Prop :=
  (c.request.isSome → c.read_buffer = [] ∧ c.response = none) ∧
  (c.response.isSome → c.read_buffer = [])

/-- The read loop of the repository's tests: repeatedly read into a
buffer of capacity `k`, concatenating the chunks, stopping at the first
zero-byte read (EOF) or error; `fuel` bounds the number of iterations. -/
def readLoop (k fuel : Nat) (c : HyperHttpConnection) :
    List Nat × HyperHttpConnection :=
  match fuel with
  | 0 => ([], c)
  | Nat.succ f =>
    match read k c with
    | (Except.ok bytes, c1) =>
      if bytes.isEmpty then ([], c1)
      else
        let r := readLoop k f c1
        (bytes ++ r.1, r.2)
    | (Except.error _, c1) => ([], c1)

/-- Sample outbound request used to exercise the theorems. -/
def reqSample : HRequest :=
  { method := HyperMethod.GET, uri := "https://example.com", headers := [],
    body := [] }

/-- Sample response with a two-byte body used to exercise the theorems. -/
def respSample : HResponse :=
  { status := 200, headers := [], body := Except.ok [104, 105] }

/-- Transport oracle that always answers with `respSample`. -/
def trOk : Transport := fun _ => Except.ok respSample

/-- Transport oracle that always fails. -/
def trFail : Transport := fun _ => Except.error ()

/-- Sample connection with no response set but two unread bytes left in
the read buffer. -/
def connBuf : HyperHttpConnection :=
  { request := none, response := none, read_buffer := [4, 5],
    write_buffer := [] }

/-- Sample connection holding a stale response and dirty buffers. -/
def connDirty : HyperHttpConnection :=
  { request := none, response := some respSample, read_buffer := [9],
    write_buffer := [8] }

/-- Connection state right after a successful `initiate_request`. -/
def connReq : HyperHttpConnection :=
  applyOp initialConn (Op.opInitReq Method.Get "https://example.com" [])

/-- Connection state right after a successful `initiate_response`. -/
def connResp : HyperHttpConnection :=
  applyOp connReq (Op.opInitResp trOk)

theorem goodState_initialConn : GoodState initialConn := by
  simp [GoodState, initialConn]

theorem goodState_applyOp {c : HyperHttpConnection} (op : Op)
    (h : GoodState c) : GoodState (applyOp c op) := by
  obtain ⟨h1, h2⟩ := h
  cases op with
  | opInitReq m uri hs =>
    rcases hm : map_method m with e | v
    · simpa [applyOp, initiate_request, hm] using ⟨h1, h2⟩
    · rcases hb : build_headers hs with e | hmap
      · simpa [applyOp, initiate_request, hm, hb] using ⟨h1, h2⟩
      · by_cases hu : uriValid uri
        · simp [applyOp, initiate_request, hm, hb, hu, GoodState]
        · simpa [applyOp, initiate_request, hm, hb, hu] using ⟨h1, h2⟩
  | opWrite buf =>
    refine ⟨fun hq => ?_, fun hr => ?_⟩
    · simpa [applyOp, write] using h1 (by simpa [applyOp, write] using hq)
    · simpa [applyOp, write] using h2 (by simpa [applyOp, write] using hr)
  | opFlush =>
    rcases hq : c.request with _ | req
    · simpa [applyOp, flush, hq] using ⟨h1, h2⟩
    · obtain ⟨hrb, hresp⟩ := h1 (by simp [hq])
      simp [applyOp, flush, hq, GoodState, hrb, hresp]
  | opInitResp tr =>
    rcases hq : c.request with _ | req
    · simpa [applyOp, initiate_response, hq] using ⟨h1, h2⟩
    · obtain ⟨hrb, hresp⟩ := h1 (by simp [hq])
      rcases ht : tr req with e | resp
      · simp [applyOp, initiate_response, hq, ht, GoodState, hrb, hresp]
      · simp [applyOp, initiate_response, hq, ht, GoodState, hrb]
  | opRead n =>
    by_cases hrb : c.read_buffer = []
    · by_cases hresp : c.response.isSome
      · obtain ⟨resp, hresp2⟩ := Option.isSome_iff_exists.mp hresp
        have hq : c.request = none := by
          rcases hq2 : c.request with _ | req
          · rfl
          · exact absurd ((h1 (by simp [hq2])).2) (by simp [hresp2])
        rcases hbody : resp.body with e | bytes
        · simp [applyOp, read, load_response_body, hrb, hresp2, hbody,
                GoodState, hq]
        · simp only [applyOp, read, load_response_body, hrb, hresp2, hbody,
                     List.isEmpty_nil, Option.isSome_some, Bool.and_self,
                     if_true, readCore]
          split <;> simp [GoodState, hq]
      · have hresp2 : c.response = none := Option.not_isSome_iff_eq_none.mp hresp
        have : applyOp c (Op.opRead n) = c := by
          simp [applyOp, read, readCore, hrb, hresp2]
        rw [this]
        exact ⟨h1, h2⟩
    · have hq : c.request = none := by
        rcases hq2 : c.request with _ | req
        · rfl
        · exact absurd ((h1 (by simp [hq2])).1) hrb
      have hresp2 : c.response = none := by
        rcases hr2 : c.response with _ | resp
        · rfl
        · exact absurd (h2 (by simp [hr2])) hrb
      simp [applyOp, read, readCore, hrb, hq, hresp2, GoodState,
            List.isEmpty_iff]

theorem reachable_goodState {c : HyperHttpConnection} (h : Reachable c) :
    GoodState c := by
  induction h with
  | init => exact goodState_initialConn
  | step c op hc ih => exact goodState_applyOp op ih

theorem reachable_request_some {c : HyperHttpConnection} (h : Reachable c)
    (hq : c.request.isSome) : c.read_buffer = [] ∧ c.response = none :=
  (reachable_goodState h).1 hq

theorem reachable_response_some {c : HyperHttpConnection} (h : Reachable c)
    (hr : c.response.isSome) : c.read_buffer = [] :=
  (reachable_goodState h).2 hr

theorem reachable_connReq : Reachable connReq :=
  Reachable.step initialConn (Op.opInitReq Method.Get "https://example.com" [])
    Reachable.init

theorem reachable_connResp : Reachable connResp :=
  Reachable.step connReq (Op.opInitResp trOk) reachable_connReq

theorem take_min_length (B : List Nat) (n : Nat) :
    B.take (min B.length n) = B.take n := by
  rcases le_total B.length n with h | h
  · rw [min_eq_left h, List.take_length, List.take_of_length_le h]
  · rw [min_eq_right h]

theorem drop_min_length (B : List Nat) (n : Nat) :
    B.drop (min B.length n) = B.drop n := by
  rcases le_total B.length n with h | h
  · rw [min_eq_left h, List.drop_length, List.drop_eq_nil_of_le h]
  · rw [min_eq_right h]

theorem readCore_eq (n : Nat) (c : HyperHttpConnection) :
    readCore n c = (Except.ok (c.read_buffer.take n),
      { c with read_buffer := c.read_buffer.drop n }) := by
  obtain ⟨q, r, rb, wb⟩ := c
  by_cases h : rb = []
  · subst h
    simp [readCore]
  · simp [readCore, List.isEmpty_eq_false.mpr h, take_min_length,
          drop_min_length]

theorem read_loads {c : HyperHttpConnection} {resp : HResponse}
    {B : List Nat} (n : Nat) (hr : c.response = some resp)
    (hb : resp.body = Except.ok B) (hrb : c.read_buffer = []) :
    read n c = (Except.ok (B.take n),
      { c with response := none, read_buffer := B.drop n }) := by
  simp [read, hrb, hr, load_response_body, hb, readCore_eq]

theorem buildHeadersAux_first_invalid (n v : String)
    (post : List (String × String)) :
    ∀ (pre acc : List (String × String)),
      (pre.all fun p => headerNameValid p.1 && headerValueValid p.2) = true →
      (headerNameValid n = false →
        buildHeadersAux acc (pre ++ (n, v) :: post)
          = Except.error HyperError.InvalidHeaderName) ∧
      (headerNameValid n = true → headerValueValid v = false →
        buildHeadersAux acc (pre ++ (n, v) :: post)
          = Except.error HyperError.InvalidHeaderValue) := by
  intro pre
  induction pre with
  | nil =>
    intro acc _
    constructor
    · intro hn
      simp [buildHeadersAux, hn]
    · intro hn hv
      simp [buildHeadersAux, hn, hv]
  | cons p rest ih =>
    intro acc hall
    obtain ⟨a, b⟩ := p
    rw [List.all_cons, Bool.and_eq_true, Bool.and_eq_true] at hall
    obtain ⟨⟨ha, hb⟩, hrest⟩ := hall
    constructor
    · intro hn
      have h := (ih (insertHeader acc (lowerString a) b) hrest).1 hn
      simpa [buildHeadersAux, ha, hb] using h
    · intro hn hv
      have h := (ih (insertHeader acc (lowerString a) b) hrest).2 hn hv
      simpa [buildHeadersAux, ha, hb] using h

/-- C1 (counterexample): the claim says `write` fails with `NoRequest`
when no request is pending; at the freshly constructed connection
(request is `none`) writing one byte succeeds with count 1 instead. -/
theorem c1_counterexample :
    initialConn.request = none ∧
    (write [1] initialConn).1 = Except.ok 1 ∧
    (write [1] initialConn).1 ≠ Except.error HyperError.NoRequest := by
  refine ⟨rfl, rfl, ?_⟩
  decide

/-- C1 (amended): with no request pending, `flush` fails with
`NoRequest` leaving the state unchanged (no panic, no silent success),
while `write` performs no request check at all: it always succeeds,
appending the bytes to the write buffer and returning their count. -/
theorem c1_flush_noRequest_write_unchecked (buf : List Nat)
    (c : HyperHttpConnection) (h : c.request = none) :
    flush c = (Except.error HyperError.NoRequest, c) ∧
    (write buf c).1 = Except.ok buf.length ∧
    (write buf c).2 = { c with write_buffer := c.write_buffer ++ buf } := by
  refine ⟨?_, rfl, rfl⟩
  simp [flush, h]

/-- C1 (witness): the amended claim at the initial connection. -/
theorem c1_witness :
    flush initialConn = (Except.error HyperError.NoRequest, initialConn) ∧
    (write [5, 6] initialConn).1 = Except.ok 2 ∧
    (write [5, 6] initialConn).2 =
      { initialConn with write_buffer := [5, 6] } := by
  have h := c1_flush_noRequest_write_unchecked [5, 6] initialConn rfl
  exact ⟨h.1, h.2.1, h.2.2⟩

/-- C3: with a request pending and an empty write buffer, writing `b1`
then `b2` and flushing gives a request body `b1 ++ b2` and empties the
write buffer; writing `b3` and flushing again replaces the body with
`b3` alone. -/
theorem c3_flush_replaces_body (b1 b2 b3 : List Nat) (req : HRequest)
    (c : HyperHttpConnection) (hq : c.request = some req)
    (hw : c.write_buffer = []) :
    (flush (write b2 (write b1 c).2).2).1 = Except.ok () ∧
    (flush (write b2 (write b1 c).2).2).2.request
      = some { req with body := b1 ++ b2 } ∧
    (flush (write b2 (write b1 c).2).2).2.write_buffer = [] ∧
    (flush (write b3 (flush (write b2 (write b1 c).2).2).2).2).1
      = Except.ok () ∧
    (flush (write b3 (flush (write b2 (write b1 c).2).2).2).2).2.request
      = some { req with body := b3 } ∧
    (flush (write b3 (flush (write b2 (write b1 c).2).2).2).2).2.write_buffer
      = [] := by
  simp [write, flush, hq, hw]

/-- C3 (witness): the double write/flush/write/flush cycle on the
connection right after `initiate_request`. -/
theorem c3_witness :
    (flush (write [2] (write [1] connReq).2).2).1 = Except.ok () ∧
    (flush (write [2] (write [1] connReq).2).2).2.request
      = some { reqSample with body := [1, 2] } ∧
    (flush (write [2] (write [1] connReq).2).2).2.write_buffer = [] ∧
    (flush (write [3] (flush (write [2] (write [1] connReq).2).2).2).2).1
      = Except.ok () ∧
    (flush (write [3]
      (flush (write [2] (write [1] connReq).2).2).2).2).2.request
      = some { reqSample with body := [3] } ∧
    (flush (write [3]
      (flush (write [2] (write [1] connReq).2).2).2).2).2.write_buffer
      = [] := by
  have h := c3_flush_replaces_body [1] [2] [3] reqSample connReq rfl rfl
  exact ⟨h.1, h.2.1, h.2.2.1, h.2.2.2.1, h.2.2.2.2.1, h.2.2.2.2.2⟩

/-- C4: for a supported method, a header list whose first violating
pair has an invalid name makes `initiate_request` fail with
`InvalidHeaderName`, and one whose first violating pair has a valid
name but an invalid value makes it fail with `InvalidHeaderValue` — the
error corresponds to the violated rule — and in both cases the whole
connection state is returned untouched (no request becomes pending, any
previous response and both buffers survive). -/
theorem c4_invalid_header_aborts (m : Method) (hm : HyperMethod)
    (uri : String) (pre post : List (String × String)) (n v : String)
    (c : HyperHttpConnection) (hmeth : map_method m = Except.ok hm)
    (hpre : (pre.all fun p =>
      headerNameValid p.1 && headerValueValid p.2) = true) :
    (headerNameValid n = false →
      initiate_request m uri (pre ++ (n, v) :: post) c
        = (Except.error HyperError.InvalidHeaderName, c)) ∧
    (headerNameValid n = true → headerValueValid v = false →
      initiate_request m uri (pre ++ (n, v) :: post) c
        = (Except.error HyperError.InvalidHeaderValue, c)) := by
  have h := buildHeadersAux_first_invalid n v post pre [] hpre
  constructor
  · intro hn
    simp [initiate_request, hmeth, build_headers, h.1 hn]
  · intro hn hv
    simp [initiate_request, hmeth, build_headers, h.2 hn hv]

/-- C4 (witness): after one valid pair, a name containing a space
yields `InvalidHeaderName` on the fresh connection, and a value
containing a control byte yields `InvalidHeaderValue` on the dirty
connection; both leave the state untouched. -/
theorem c4_witness :
    initiate_request Method.Get "https://example.com"
      [("ok-name", "ok"), ("bad name", "v")] initialConn
      = (Except.error HyperError.InvalidHeaderName, initialConn) ∧
    initiate_request Method.Get "https://example.com"
      [("ok-name", "ok"), ("good-name", "a\x01b")] connDirty
      = (Except.error HyperError.InvalidHeaderValue, connDirty) := by
  have h1 := c4_invalid_header_aborts Method.Get HyperMethod.GET
    "https://example.com" [("ok-name", "ok")] [] "bad name" "v"
    initialConn rfl (by decide)
  have h2 := c4_invalid_header_aborts Method.Get HyperMethod.GET
    "https://example.com" [("ok-name", "ok")] [] "good-name" "a\x01b"
    connDirty rfl (by decide)
  exact ⟨h1.1 (by decide), h2.2 (by decide) (by decide)⟩

/-- C6: for any supported method, valid URI and valid header list,
`initiate_request` succeeds, stores a pending request with an empty
body, discards any previous response and clears both buffers; right
afterwards `is_request_initiated` is true and `is_response_initiated`
is false. -/
theorem c6_initiate_request_success (m : Method) (hm : HyperMethod)
    (uri : String) (hs hmap : List (String × String))
    (c : HyperHttpConnection) (hmeth : map_method m = Except.ok hm)
    (huri : uriValid uri = true)
    (hhdr : build_headers hs = Except.ok hmap) :
    initiate_request m uri hs c = (Except.ok (),
      { request := some { method := hm, uri := uri, headers := hmap,
                          body := [] },
        response := none, read_buffer := [], write_buffer := [] }) ∧
    is_request_initiated (initiate_request m uri hs c).2 = true ∧
    is_response_initiated (initiate_request m uri hs c).2 = false := by
  simp [initiate_request, hmeth, huri, hhdr, is_request_initiated,
        is_response_initiated]

/-- C6 (witness): a POST with one valid header on a dirty connection. -/
theorem c6_witness :
    initiate_request Method.Post "https://example.com" [("User-Agent", "x")]
      connDirty = (Except.ok (),
      { request := some { method := HyperMethod.POST,
                          uri := "https://example.com",
                          headers := [("user-agent", "x")], body := [] },
        response := none, read_buffer := [], write_buffer := [] }) ∧
    is_request_initiated (initiate_request Method.Post "https://example.com"
      [("User-Agent", "x")] connDirty).2 = true ∧
    is_response_initiated (initiate_request Method.Post "https://example.com"
      [("User-Agent", "x")] connDirty).2 = false :=
  c6_initiate_request_success Method.Post HyperMethod.POST
    "https://example.com" [("User-Agent", "x")] [("user-agent", "x")]
    connDirty rfl (by decide) (by decide)

/-- C7: `status` returns the stored response status whenever a response
is set, and the fixed 500 sentinel (no panic, no error) whenever none
is set. -/
theorem c7_status_sentinel (c : HyperHttpConnection) :
    (∀ resp, c.response = some resp → status c = resp.status) ∧
    (c.response = none → status c = 500) := by
  constructor
  · intro resp h
    simp [status, h]
  · intro h
    simp [status, h]

/-- C7 (witness): 200 with the sample response set, 500 on the fresh
connection. -/
theorem c7_witness : status connResp = 200 ∧ status initialConn = 500 :=
  ⟨(c7_status_sentinel connResp).1 respSample rfl,
    (c7_status_sentinel initialConn).2 rfl⟩

/-- C10: with buffered body bytes available, a zero-capacity read
returns `Ok` with zero bytes — exactly the EOF signal an exhausted
connection gives — while leaving the state, buffered bytes included,
intact. -/
theorem c10_zero_read (c c2 : HyperHttpConnection)
    (h : c.read_buffer ≠ []) (h2 : c2.read_buffer = [])
    (h3 : c2.response = none) :
    read 0 c = (Except.ok [], c) ∧ (read 0 c).1 = (read 0 c2).1 := by
  have hne : c.read_buffer.isEmpty = false := List.isEmpty_eq_false.mpr h
  constructor
  · simp [read, hne, readCore_eq]
  · simp [read, hne, h2, h3, readCore_eq]

/-- C10 (witness): a connection holding two unread bytes answers a
zero-capacity read with `Ok` and zero bytes, like EOF on the fresh
connection. -/
theorem c10_witness :
    read 0 connBuf = (Except.ok [], connBuf) ∧
    (read 0 connBuf).1 = (read 0 initialConn).1 :=
  c10_zero_read connBuf initialConn (by decide) rfl rfl

/-- C2: on any reachable state, `initiate_response` fails with
`NoRequest` when no request is pending; on transport success it stores
the response (`is_response_initiated` true, `is_request_initiated`
false) with an empty read buffer; on transport failure it surfaces the
`Client` error and leaves no response set. -/
theorem c2_initiate_response (tr : Transport) (c : HyperHttpConnection)
    (h : Reachable c) :
    (c.request = none →
      initiate_response tr c = (Except.error HyperError.NoRequest, c)) ∧
    (∀ req resp, c.request = some req → tr req = Except.ok resp →
      initiate_response tr c = (Except.ok (),
        { c with request := none, response := some resp }) ∧
      is_response_initiated (initiate_response tr c).2 = true ∧
      is_request_initiated (initiate_response tr c).2 = false ∧
      (initiate_response tr c).2.read_buffer = []) ∧
    (∀ req, c.request = some req → tr req = Except.error () →
      (initiate_response tr c).1 = Except.error HyperError.Client ∧
      is_response_initiated (initiate_response tr c).2 = false) := by
  refine ⟨fun hq => ?_, fun req resp hq ht => ?_, fun req hq ht => ?_⟩
  · simp [initiate_response, hq]
  · have hrb := (reachable_request_some h (by simp [hq])).1
    refine ⟨?_, ?_, ?_, ?_⟩ <;>
      simp [initiate_response, hq, ht, is_response_initiated,
            is_request_initiated, hrb]
  · have hresp := (reachable_request_some h (by simp [hq])).2
    constructor <;>
      simp [initiate_response, hq, ht, is_response_initiated, hresp]

/-- C2 (witness): a successful submit on the connection right after
`initiate_request`. -/
theorem c2_witness :
    initiate_response trOk connReq = (Except.ok (),
      { connReq with request := none, response := some respSample }) ∧
    is_response_initiated (initiate_response trOk connReq).2 = true ∧
    is_request_initiated (initiate_response trOk connReq).2 = false ∧
    (initiate_response trOk connReq).2.read_buffer = [] :=
  (c2_initiate_response trOk connReq reachable_connReq).2.1 reqSample
    respSample rfl rfl

/-- C9: `initiate_response` removes the pending request before blocking
on the transport, so a transport failure leaves neither request nor
response behind, and an immediate retry of `initiate_response` (under
any transport) or of `flush` fails with `NoRequest`. -/
theorem c9_transport_failure_drops_request (tr tr2 : Transport)
    (c : HyperHttpConnection) (req : HRequest) (h : Reachable c)
    (hq : c.request = some req) (ht : tr req = Except.error ()) :
    (initiate_response tr c).1 = Except.error HyperError.Client ∧
    is_request_initiated (initiate_response tr c).2 = false ∧
    is_response_initiated (initiate_response tr c).2 = false ∧
    initiate_response tr2 (initiate_response tr c).2
      = (Except.error HyperError.NoRequest, (initiate_response tr c).2) ∧
    flush (initiate_response tr c).2
      = (Except.error HyperError.NoRequest, (initiate_response tr c).2) := by
  have hresp := (reachable_request_some h (by simp [hq])).2
  have hstate : (initiate_response tr c).2 = { c with request := none } := by
    simp [initiate_response, hq, ht]
  refine ⟨?_, ?_, ?_, ?_, ?_⟩ <;>
    simp [initiate_response, hq, ht, hstate, is_request_initiated,
          is_response_initiated, flush, hresp]

/-- C9 (witness): a failing transport right after `initiate_request`,
with a retry under a healthy transport still rejected. -/
theorem c9_witness :
    (initiate_response trFail connReq).1 = Except.error HyperError.Client ∧
    is_request_initiated (initiate_response trFail connReq).2 = false ∧
    is_response_initiated (initiate_response trFail connReq).2 = false ∧
    initiate_response trOk (initiate_response trFail connReq).2
      = (Except.error HyperError.NoRequest,
          (initiate_response trFail connReq).2) ∧
    flush (initiate_response trFail connReq).2
      = (Except.error HyperError.NoRequest,
          (initiate_response trFail connReq).2) :=
  c9_transport_failure_drops_request trFail trOk connReq reqSample
    reachable_connReq rfl rfl

theorem readLoop_drain {k : Nat} (hk : 0 < k) :
    ∀ fuel (c : HyperHttpConnection), c.response = none →
      c.read_buffer.length < fuel →
      readLoop k fuel c = (c.read_buffer, { c with read_buffer := [] }) := by
  intro fuel
  induction fuel with
  | zero =>
    intro c _ hlen
    omega
  | succ f ih =>
    intro c hresp hlen
    obtain ⟨q, r, rb, wb⟩ := c
    simp only at hresp hlen
    subst hresp
    by_cases hrb : rb = []
    · subst hrb
      simp [readLoop, read, readCore]
    · have hread : read k ⟨q, none, rb, wb⟩
          = (Except.ok (rb.take k), ⟨q, none, rb.drop k, wb⟩) := by
        simp [read, readCore_eq]
      have hne : (rb.take k).isEmpty = false := by
        refine List.isEmpty_eq_false.mpr ?_
        cases rb with
        | nil => exact absurd rfl hrb
        | cons a t =>
          cases k with
          | zero => omega
          | succ k2 => simp
      have hlen2 : (rb.drop k).length < f := by
        have h1 : rb.length ≤ f := by omega
        have h2 : 0 < rb.length := List.length_pos.mpr hrb
        simp only [List.length_drop]
        omega
      have hrec := ih ⟨q, none, rb.drop k, wb⟩ rfl hlen2
      simp only [readLoop, hread, hne, Bool.false_eq_true, if_false, hrec]
      simp [List.take_append_drop]

theorem readLoop_from_response {k fuel : Nat} {c : HyperHttpConnection}
    {resp : HResponse} {B : List Nat} (hk : 0 < k)
    (hr : c.response = some resp) (hb : resp.body = Except.ok B)
    (hrb : c.read_buffer = []) (hf : B.length < fuel) :
    readLoop k fuel c
      = (B, { c with response := none, read_buffer := [] }) := by
  cases fuel with
  | zero => omega
  | succ f =>
    have hread : read k c
        = (Except.ok (B.take k),
            { c with response := none, read_buffer := B.drop k }) :=
      read_loads k hr hb hrb
    have hread2 : read k { c with response := none, read_buffer := B }
        = (Except.ok (B.take k),
            { c with response := none, read_buffer := B.drop k }) := by
      simp [read, readCore_eq]
    have hshift : readLoop k (f + 1) c
        = readLoop k (f + 1) { c with response := none, read_buffer := B } := by
      simp only [readLoop, hread, hread2]
    rw [hshift, readLoop_drain hk (f + 1)
      { c with response := none, read_buffer := B } rfl (by simpa using hf)]

/-- C5: for a response whose body collects to `B`, one read of capacity
at least `B.length` returns exactly `B`; draining with repeated reads
of any positive capacity `k` concatenates to the same `B`; and once the
body is delivered, every further read returns zero bytes. -/
theorem c5_read_streaming (c : HyperHttpConnection) (resp : HResponse)
    (B : List Nat) (k n fuel : Nat) (hr : c.response = some resp)
    (hb : resp.body = Except.ok B) (hrb : c.read_buffer = [])
    (hk : 0 < k) (hn : B.length ≤ n) (hf : B.length < fuel) :
    (read n c).1 = Except.ok B ∧
    (readLoop k fuel c).1 = B ∧
    (∀ m, read m (readLoop k fuel c).2
      = (Except.ok [], (readLoop k fuel c).2)) := by
  have h1 := read_loads n hr hb hrb
  have h2 := readLoop_from_response hk hr hb hrb hf
  refine ⟨?_, ?_, ?_⟩
  · rw [h1]
    simp [List.take_of_length_le hn]
  · rw [h2]
  · intro m
    rw [h2]
    simp [read, readCore]

/-- C5 (witness): the sample two-byte body read in one go and drained
byte by byte, with a trailing EOF read. -/
theorem c5_witness :
    (read 2 connResp).1 = Except.ok [104, 105] ∧
    (readLoop 1 3 connResp).1 = [104, 105] ∧
    read 7 (readLoop 1 3 connResp).2
      = (Except.ok [], (readLoop 1 3 connResp).2) := by
  have h := c5_read_streaming connResp respSample [104, 105] 1 2 3 rfl rfl
    rfl (by decide) (by decide) (by decide)
  exact ⟨h.1, h.2.1, h.2.2 7⟩

/-- C8: the first read made while a response is set consumes the
response object: afterwards `is_response_initiated` is false and
`status` reports the 500 sentinel, while the unread body bytes stay in
the read buffer and keep being served by later reads. -/
theorem c8_first_read_consumes_response (c : HyperHttpConnection)
    (resp : HResponse) (B : List Nat) (n : Nat) (h : Reachable c)
    (hr : c.response = some resp) (hb : resp.body = Except.ok B) :
    read n c = (Except.ok (B.take n),
      { c with response := none, read_buffer := B.drop n }) ∧
    is_response_initiated (read n c).2 = false ∧
    status (read n c).2 = 500 ∧
    (∀ m, (read m (read n c).2).1 = Except.ok ((B.drop n).take m)) := by
  have hrb := reachable_response_some h (by simp [hr])
  have h1 := read_loads n hr hb hrb
  refine ⟨h1, ?_, ?_, ?_⟩
  · simp [h1, is_response_initiated]
  · simp [h1, status]
  · intro m
    rw [h1]
    simp [read, readCore_eq]

/-- C8 (witness): reading one of the two sample body bytes drops the
response and the sentinel appears, yet the second byte is still
served. -/
theorem c8_witness :
    read 1 connResp = (Except.ok [104],
      { connResp with response := none, read_buffer := [105] }) ∧
    is_response_initiated (read 1 connResp).2 = false ∧
    status (read 1 connResp).2 = 500 ∧
    (read 1 (read 1 connResp).2).1 = Except.ok [105] := by
  have h := c8_first_read_consumes_response connResp respSample [104, 105] 1
    reachable_connResp rfl rfl
  exact ⟨h.1, h.2.1, h.2.2.1, h.2.2.2 1⟩

end NativeSvc
